import Mathlib

set_option autoImplicit false

namespace XAdmin

/-!
Shallow embedding of the xadmin widget-rendering module
(`xadmin/widgets.py`) and of the context-normalization helper
(`xadmin/plugins/utils.py`), together with the pieces of the host
framework (Django forms/utils) that those functions call into.

Python dictionaries are modelled as insertion-ordered association lists
over `String` keys; `d[k] = v` replaces the value at the first occurrence
of `k` in place (keeping its position) or appends a fresh entry at the
end, exactly like a Python dict whose keys are unique.
-/

/-- A Python dict with `String` keys, as an insertion-ordered association list. -/
abbrev Dict (α : Type) : Type := List (String × α)

/-- Python `d.get(k)` / `k in d`: the value at the first entry with key `k`. -/
def dlookup {α : Type} (k : String) : Dict α → Option α
  | [] => none
  | (k2, v) :: d => if k2 = k then some v else dlookup k d

/-- Python `d[k] = v`: replace the value at key `k` in place, or append. -/
def dinsert {α : Type} (k : String) (v : α) : Dict α → Dict α
  | [] => [(k, v)]
  | (k2, v2) :: d => if k2 = k then (k2, v) :: d else (k2, v2) :: dinsert k v d

/-- Python `d.update(e)` (and `dict(d, **e)`): assign every entry of `e` into `d`, in order. -/
def dupdate {α : Type} (d e : Dict α) : Dict α :=
  e.foldl (fun acc p => dinsert p.1 p.2 acc) d

/-- The value the LAST entry of `e` with key `k` carries (what a sequence of
`d[k] = v` assignments over the entries of `e` leaves at key `k`). -/
def dlookupLast {α : Type} (k : String) (e : Dict α) : Option α :=
  dlookup k e.reverse

/-- The association list has pairwise-distinct keys (true of every real Python dict). -/
def NoDupKeys {α : Type} (d : Dict α) : Prop := (d.map Prod.fst).Nodup

instance NoDupKeys_dec {α : Type} (d : Dict α) : Decidable (NoDupKeys d) :=
  inferInstanceAs (Decidable (d.map Prod.fst).Nodup)

/-- Left-biased choice on `Option` (first result wins). -/
def oor {α : Type} : Option α → Option α → Option α
  | some a, _ => some a
  | none, b => b

theorem oor_none_right {α : Type} (a : Option α) : oor a none = a := by
  cases a <;> rfl

theorem oor_none_left {α : Type} (a : Option α) : oor none a = a := rfl

theorem oor_assoc {α : Type} (a b c : Option α) :
    oor (oor a b) c = oor a (oor b c) := by
  cases a <;> cases b <;> rfl

theorem dlookup_dinsert {α : Type} (k k2 : String) (v : α) (d : Dict α) :
    dlookup k2 (dinsert k v d) = if k = k2 then some v else dlookup k2 d := by
  induction d with
  | nil =>
    by_cases h : k = k2 <;> simp [dinsert, dlookup, h]
  | cons p d ih =>
    obtain ⟨k3, v3⟩ := p
    by_cases h3 : k3 = k
    · subst h3
      by_cases h : k3 = k2 <;> simp [dinsert, dlookup, h]
    · by_cases h : k3 = k2
      · subst h
        have hne : ¬ k = k3 := fun hh => h3 hh.symm
        simp [dinsert, dlookup, h3, hne]
      · simp [dinsert, dlookup, h3, h, ih]

theorem dlookup_append {α : Type} (k : String) (d e : Dict α) :
    dlookup k (d ++ e) = oor (dlookup k d) (dlookup k e) := by
  induction d with
  | nil => simp [dlookup, oor]
  | cons p d ih =>
    obtain ⟨k2, v⟩ := p
    by_cases h : k2 = k <;> simp [dlookup, h, oor, ih]

theorem dlookupLast_cons {α : Type} (k : String) (p : String × α) (e : Dict α) :
    dlookupLast k (p :: e) =
      oor (dlookupLast k e) (if p.1 = k then some p.2 else none) := by
  obtain ⟨k2, v⟩ := p
  simp only [dlookupLast, List.reverse_cons, dlookup_append]
  by_cases h : k2 = k <;> simp [dlookup, h]

theorem dlookup_dupdate {α : Type} (k : String) (d e : Dict α) :
    dlookup k (dupdate d e) = oor (dlookupLast k e) (dlookup k d) := by
  induction e generalizing d with
  | nil => simp [dupdate, dlookupLast, dlookup, oor]
  | cons p e ih =>
    obtain ⟨k2, v⟩ := p
    have step : dupdate d ((k2, v) :: e) = dupdate (dinsert k2 v d) e := rfl
    rw [step, ih, dlookupLast_cons, dlookup_dinsert]
    by_cases h : k2 = k
    · subst h
      cases dlookupLast k2 e <;> simp [oor]
    · cases dlookupLast k e <;> simp [oor, h]

theorem dlookup_eq_none {α : Type} (k : String) (d : Dict α)
    (h : k ∉ d.map Prod.fst) : dlookup k d = none := by
  induction d with
  | nil => rfl
  | cons p d ih =>
    obtain ⟨k2, v⟩ := p
    have h1 : ¬ k2 = k := by
      intro hh
      exact h (by simp [hh])
    have h2 : k ∉ d.map Prod.fst := by
      intro hh
      exact h (by simp [hh])
    simp [dlookup, h1, ih h2]

theorem dlookupLast_eq_dlookup {α : Type} (k : String) (e : Dict α)
    (h : NoDupKeys e) : dlookupLast k e = dlookup k e := by
  induction e with
  | nil => rfl
  | cons p e ih =>
    obtain ⟨k2, v⟩ := p
    have hnd : NoDupKeys e := by
      simpa [NoDupKeys] using (List.nodup_cons.mp h).2
    have hnotin : k2 ∉ e.map Prod.fst := by
      simpa [NoDupKeys] using (List.nodup_cons.mp h).1
    rw [dlookupLast_cons, ih hnd]
    by_cases hk : k2 = k
    · subst hk
      simp [dlookup_eq_none k2 e hnotin, dlookup, oor]
    · cases h2 : dlookup k e <;> simp [dlookup, hk, oor, h2]

/-!
`xadmin/plugins/utils.py`, `get_context_dict`.

A Django template context is either a `RequestContext` (a stack of scope
dicts, iterated in order by `context.dicts`) or some other object, which
the code returns unchanged; the non-`RequestContext` inputs this helper
meets are plain mappings, so the embedding gives that branch type `Dict α`.
-/

/-- The two shapes of object `get_context_dict` distinguishes. -/
inductive TemplateContext (α : Type) : Type where
  | requestContext (dicts : List (Dict α)) : TemplateContext α
  | plain (d : Dict α) : TemplateContext α

/-- Embedding of `get_context_dict` (src/xadmin/plugins/utils.py:4-18):
for a `RequestContext` it starts from an empty dict and assigns
`ctx[t] = i[t]` for every key `t` of every layer `i` of `context.dicts`,
in order; anything else is returned unchanged. -/
def get_context_dict {α : Type} : TemplateContext α → Dict α
  | .requestContext ds => ds.foldl (fun ctx i => dupdate ctx i) []
  | .plain d => d

/-- The value for key `k` contributed by the latest layer of `ds` that
holds `k` (later layers override earlier ones). -/
def latest_layer_value {α : Type} (k : String) (ds : List (Dict α)) : Option α :=
  ds.foldl (fun acc d => oor (dlookupLast k d) acc) none

theorem latest_layer_value_foldl {α : Type} (k : String) (ds : List (Dict α))
    (a b : Option α) :
    ds.foldl (fun acc d => oor (dlookupLast k d) acc) (oor a b) =
      oor (ds.foldl (fun acc d => oor (dlookupLast k d) acc) a) b := by
  induction ds generalizing a with
  | nil => rfl
  | cons d ds ih =>
    simp only [List.foldl_cons]
    rw [← oor_assoc, ih]

theorem dlookup_foldl_dupdate {α : Type} (k : String) (ds : List (Dict α))
    (acc : Dict α) :
    dlookup k (ds.foldl (fun ctx i => dupdate ctx i) acc) =
      oor (latest_layer_value k ds) (dlookup k acc) := by
  induction ds generalizing acc with
  | nil => simp [latest_layer_value, oor]
  | cons d ds ih =>
    simp only [List.foldl_cons, latest_layer_value]
    rw [ih, dlookup_dupdate]
    calc oor (ds.foldl (fun acc d2 => oor (dlookupLast k d2) acc) none)
          (oor (dlookupLast k d) (dlookup k acc))
        = oor (oor (ds.foldl (fun acc d2 => oor (dlookupLast k d2) acc) none)
            (dlookupLast k d)) (dlookup k acc) := by
          rw [oor_assoc]
      _ = oor (ds.foldl (fun acc d2 => oor (dlookupLast k d2) acc)
            (oor none (dlookupLast k d))) (dlookup k acc) := by
          rw [latest_layer_value_foldl]
      _ = _ := by rw [oor_none_right, oor_none_left]

/-- Claim C1: `get_context_dict` flattens a `RequestContext` into a single
dict holding exactly the keys of the layered scope dicts, a key found in
several layers taking its value from the latest such layer, and returns
any non-`RequestContext` object unchanged. -/
theorem get_context_dict_spec {α : Type} (ds : List (Dict α)) (k : String)
    (d : Dict α) :
    dlookup k (get_context_dict (TemplateContext.requestContext ds)) =
        latest_layer_value k ds ∧
      get_context_dict (TemplateContext.plain d) = d := by
  constructor
  · rw [get_context_dict, dlookup_foldl_dupdate]
    have : dlookup k ([] : Dict α) = none := rfl
    rw [this, oor_none_right]
  · rfl

/-!
Python values and the Django HTML-escaping layer used by `widgets.py`.

`PyVal` covers the attribute values the widget module traffics in: `None`,
booleans, ints and strings; a string carries its `SafeText` mark (the flag
`mark_safe` sets and `conditional_escape` inspects).
-/

/-- A Python value as it appears in a widget attrs dict. A `vStr` carries
the text and whether the string is a Django `SafeText`. -/
inductive PyVal : Type where
  | vNone : PyVal
  | vBool : Bool → PyVal
  | vInt : Int → PyVal
  | vStr : String → Bool → PyVal
deriving DecidableEq

/-- Python `str(v)` / Django `force_text(v)` on a `PyVal` (`force_text`
returns a text string unchanged, keeping a `SafeText` safe). -/
def PyVal.force_text : PyVal → String
  | .vNone => "None"
  | .vBool true => "True"
  | .vBool false => "False"
  | .vInt n => toString n
  | .vStr s _ => s

/-- Python truthiness of a `PyVal` (`bool(v)`). -/
def PyVal.truthy : PyVal → Bool
  | .vNone => false
  | .vBool b => b
  | .vInt n => n != 0
  | .vStr s _ => s != ""

/-- Django `django.utils.html.escape` on one character: the five
HTML-special characters become entities (`&` first in the chained
`replace` calls, so a character-wise map agrees with the chain). -/
def escapeChar (c : Char) : String :=
  if c = '&' then "&amp;"
  else if c = '<' then "&lt;"
  else if c = '>' then "&gt;"
  else if c = Char.ofNat 34 then "&quot;"
  else if c = Char.ofNat 39 then "&#39;"
  else String.singleton c

/-- Django `escape`: HTML-escape every character of the text. -/
def escapeHtml (s : String) : String :=
  String.join (s.toList.map escapeChar)

/-- Django `conditional_escape` on a `PyVal`: a `SafeText` passes through
unchanged, everything else is `force_text`-ed and escaped. -/
def PyVal.cond_escape : PyVal → String
  | .vStr s true => s
  | v => escapeHtml v.force_text

/-- Key order on attr entries: Python `sorted(attrs.items())` on a dict
with unique keys compares only the keys. -/
def attrLE (p q : String × PyVal) : Prop := p.1 ≤ q.1

instance attrLE_dec : DecidableRel attrLE :=
  fun p q => inferInstanceAs (Decidable (p.1 ≤ q.1))

instance attrLE_total : IsTotal (String × PyVal) attrLE :=
  ⟨fun p q => le_total p.1 q.1⟩

instance attrLE_trans : IsTrans (String × PyVal) attrLE :=
  ⟨fun _ _ _ h1 h2 => le_trans h1 h2⟩

/-- Python `sorted(attrs.items())` for a dict: stable sort by key. -/
def sortAttrs (l : List (String × PyVal)) : List (String × PyVal) :=
  List.insertionSort attrLE l

/-- One ` key="value"` fragment of `flatatt`: `format_html` passes both
arguments through `conditional_escape`. -/
def attrFragment (kv : String × PyVal) : String :=
  " " ++ escapeHtml kv.1 ++ "=\"" ++ kv.2.cond_escape ++ "\""

/-- Embedding of `flatatt` (src/xadmin/widgets.py:20-29):
`format_html_join('', ' {0}="{1}"', sorted(attrs.items()))`. -/
def flatatt (attrs : Dict PyVal) : String :=
  String.join ((sortAttrs attrs).map attrFragment)

/-- The fragment the claim describes for one entry: leading space, the key,
`="`, the value, `"` — with no escaping applied. -/
def attrFragmentClaim (kv : String × PyVal) : String :=
  " " ++ kv.1 ++ "=\"" ++ kv.2.force_text ++ "\""

/-- Claim C2, counterexample: on the dict `{"a": '"'}` the code emits
` a="&quot;"` (the value is escaped by `format_html_join`), not the
claimed ` a="""`. -/
theorem flatatt_claim_counterexample :
    flatatt [("a", PyVal.vStr "\"" false)] ≠
      String.join ((sortAttrs [("a", PyVal.vStr "\"" false)]).map attrFragmentClaim) := by
  decide

/-- Claim C2 as amended: `flatatt` returns the concatenation, in ascending
sorted key order, of one fragment per entry of the form: a leading space,
the HTML-escaped key, `="`, the conditionally HTML-escaped value, `"`
(escaping is skipped only for values already marked safe); `flatatt` of
the empty dict is the empty string. -/
theorem flatatt_spec (attrs : Dict PyVal) :
    (∃ l : List (String × PyVal), l.Perm attrs ∧
        l.Sorted attrLE ∧
        flatatt attrs = String.join (l.map attrFragment)) ∧
      flatatt [] = "" := by
  refine ⟨⟨sortAttrs attrs, ?_, ?_, rfl⟩, rfl⟩
  · exact List.perm_insertionSort attrLE attrs
  · exact List.sorted_insertionSort attrLE attrs

/-!
Widget constructors: each builds a widget-specific default attrs dict and
`update`s it with the caller-supplied attrs (when not `None`) before
handing the merged dict to the base-class constructor.
-/

/-- Default attrs of `AdminDateWidget` (src/xadmin/widgets.py:150). -/
def adminDateWidget_default_attrs : Dict PyVal :=
  [("class", PyVal.vStr "date-field" false), ("size", PyVal.vStr "10" false)]

/-- Embedding of `AdminDateWidget.__init__` (src/xadmin/widgets.py:149-153):
the attrs dict passed to the base constructor. -/
def adminDateWidget_init_attrs (attrs : Option (Dict PyVal)) : Dict PyVal :=
  match attrs with
  | none => adminDateWidget_default_attrs
  | some a => dupdate adminDateWidget_default_attrs a

/-- Default attrs of `AdminTextInputWidget` (src/xadmin/widgets.py:293). -/
def adminTextInputWidget_default_attrs : Dict PyVal :=
  [("class", PyVal.vStr "text-field" false)]

/-- Embedding of `AdminTextInputWidget.__init__` (src/xadmin/widgets.py:291-296). -/
def adminTextInputWidget_init_attrs (attrs : Option (Dict PyVal)) : Dict PyVal :=
  match attrs with
  | none => adminTextInputWidget_default_attrs
  | some a => dupdate adminTextInputWidget_default_attrs a

/-- Default attrs of `AdminSelectMultiple` (src/xadmin/widgets.py:270). -/
def adminSelectMultiple_default_attrs : Dict PyVal :=
  [("class", PyVal.vStr "select-multi" false)]

/-- Embedding of `AdminSelectMultiple.__init__` (src/xadmin/widgets.py:268-273). -/
def adminSelectMultiple_init_attrs (attrs : Option (Dict PyVal)) : Dict PyVal :=
  match attrs with
  | none => adminSelectMultiple_default_attrs
  | some a => dupdate adminSelectMultiple_default_attrs a

/-- Claim C6: the admin widget constructors merge a widget-specific default
attribute set with the caller-supplied attrs; a key the caller supplies
overrides the default, a default for a key the caller omits is kept, and
with no caller attrs the defaults are used as-is. -/
theorem admin_widget_init_attrs_spec (a : Dict PyVal) (k : String)
    (h : NoDupKeys a) :
    (dlookup k (adminDateWidget_init_attrs (some a)) =
        oor (dlookup k a) (dlookup k adminDateWidget_default_attrs) ∧
      adminDateWidget_init_attrs none = adminDateWidget_default_attrs) ∧
    (dlookup k (adminTextInputWidget_init_attrs (some a)) =
        oor (dlookup k a) (dlookup k adminTextInputWidget_default_attrs) ∧
      adminTextInputWidget_init_attrs none = adminTextInputWidget_default_attrs) ∧
    (dlookup k (adminSelectMultiple_init_attrs (some a)) =
        oor (dlookup k a) (dlookup k adminSelectMultiple_default_attrs) ∧
      adminSelectMultiple_init_attrs none = adminSelectMultiple_default_attrs) := by
  refine ⟨⟨?_, rfl⟩, ⟨?_, rfl⟩, ⟨?_, rfl⟩⟩ <;>
    simp [adminDateWidget_init_attrs, adminTextInputWidget_init_attrs,
      adminSelectMultiple_init_attrs, dlookup_dupdate, dlookupLast_eq_dlookup k a h]

/-- Claim C6, witness: a caller-supplied `class` overrides the `date-field`
default while the `size: 10` default survives. -/
theorem admin_widget_init_attrs_spec_witness :
    NoDupKeys [("class", PyVal.vStr "my" false)] ∧
      dlookup "class" (adminDateWidget_init_attrs (some [("class", PyVal.vStr "my" false)])) =
        oor (dlookup "class" [("class", PyVal.vStr "my" false)])
          (dlookup "class" adminDateWidget_default_attrs) :=
  ⟨by decide,
    (admin_widget_init_attrs_spec [("class", PyVal.vStr "my" false)] "class"
      (by decide)).1.1⟩

/-!
The fixed decorative wrappers the date/time widgets put around the HTML
fragment their base-class `render` produced, and the `AdminSplitDateTime`
output wrapper. `ugettext` is modelled as the identity translation (the
untranslated default). The base-class fragment is a parameter: the claims
quantify over it verbatim.
-/

/-- Modelled from the host framework: `ugettext` with no active
translation returns its argument. -/
def ugettext (s : String) : String := s

/-- Markup before the base fragment in `AdminDateWidget.render`
(src/xadmin/widgets.py:155-158). -/
def adminDateWidget_wrap_open : String :=
  "<div class=\"input-group date bootstrap-datepicker\"><span class=\"input-group-addon\"><i class=\"fa fa-calendar\"></i></span>"

/-- Markup after the base fragment in `AdminDateWidget.render`. -/
def adminDateWidget_wrap_close : String :=
  "<span class=\"input-group-btn\"><button class=\"btn btn-default\" type=\"button\">" ++
    ugettext "Today" ++ "</button></span></div>"

/-- Embedding of `AdminDateWidget.render` (src/xadmin/widgets.py:155-158),
parametrized by the `input_html` the base-class `render` returned. -/
def adminDateWidget_render (input_html : String) : String :=
  "<div class=\"input-group date bootstrap-datepicker\"><span class=\"input-group-addon\"><i class=\"fa fa-calendar\"></i></span>" ++
    input_html ++
    "<span class=\"input-group-btn\"><button class=\"btn btn-default\" type=\"button\">" ++
    ugettext "Today" ++ "</button></span></div>"

/-- Markup before the base fragment in `AdminTimeWidget.render`
(src/xadmin/widgets.py:173-176); the source splits this across two
adjacent string literals. -/
def adminTimeWidget_wrap_open : String :=
  "<div class=\"input-group time bootstrap-clockpicker\"><span class=\"input-group-addon\"><i class=\"fa fa-clock-o\">" ++
    "</i></span>"

/-- Markup after the base fragment in `AdminTimeWidget.render`. -/
def adminTimeWidget_wrap_close : String :=
  "<span class=\"input-group-btn\"><button class=\"btn btn-default\" type=\"button\">" ++
    ugettext "Now" ++ "</button></span></div>"

/-- Embedding of `AdminTimeWidget.render` (src/xadmin/widgets.py:173-176),
parametrized by the base-class fragment. -/
def adminTimeWidget_render (input_html : String) : String :=
  "<div class=\"input-group time bootstrap-clockpicker\"><span class=\"input-group-addon\"><i class=\"fa fa-clock-o\">" ++
    "</i></span>" ++ input_html ++
    "<span class=\"input-group-btn\"><button class=\"btn btn-default\" type=\"button\">" ++
    ugettext "Now" ++ "</button></span></div>"

/-- Embedding of `AdminSplitDateTime.format_output`
(src/xadmin/widgets.py:196-198). -/
def adminSplitDateTime_format_output (r0 r1 : String) : String :=
  "<div class=\"datetime clearfix\">" ++ r0 ++ r1 ++ "</div>"

/-- Claim C7: `AdminDateWidget.render` and `AdminTimeWidget.render` return
the base-class fragment verbatim between a fixed opening wrapper (input
group with icon span) and a fixed closing wrapper (button span), and
`AdminSplitDateTime.format_output` concatenates the two sub-widget
fragments in order inside a `<div class="datetime clearfix">` wrapper. -/
theorem admin_wrapper_render_spec (input_html r0 r1 : String) :
    adminDateWidget_render input_html =
        adminDateWidget_wrap_open ++ input_html ++ adminDateWidget_wrap_close ∧
      adminTimeWidget_render input_html =
        adminTimeWidget_wrap_open ++ input_html ++ adminTimeWidget_wrap_close ∧
      adminSplitDateTime_format_output r0 r1 =
        "<div class=\"datetime clearfix\">" ++ (r0 ++ r1) ++ "</div>" := by
  refine ⟨?_, ?_, ?_⟩ <;>
    simp only [adminDateWidget_render, adminDateWidget_wrap_open,
      adminDateWidget_wrap_close, adminTimeWidget_render,
      adminTimeWidget_wrap_open, adminTimeWidget_wrap_close,
      adminSplitDateTime_format_output, ugettext, String.append_assoc]

/-!
Choice inputs and renderers (`ChoiceInput`, `RadioChoiceInput`,
`AdminRadioInput`, `ChoiceFieldRenderer`, `AdminRadioFieldRenderer`).

Python mutation is made explicit: a widget's `render`/`tag` returns both
the markup and the widget's own state afterwards (its attrs dict is the
only thing those methods mutate). A renderer hands each widget
`self.attrs.copy()`, which the pure embedding renders as the widget state
simply holding its own `attrs` value.
-/

/-- A choice label: its text and whether it is already a `SafeText`. -/
structure Label : Type where
  text : String
  safe : Bool
deriving DecidableEq

/-- Django `conditional_escape(force_text(label))`. -/
def Label.cond_escape (l : Label) : String :=
  if l.safe then l.text else escapeHtml l.text

/-- A `(value, label)` choice pair. -/
abbrev Choice : Type := PyVal × Label

/-- The state of a `ChoiceInput` (src/xadmin/widgets.py:51-88) after
`__init__` ran: `choice_value`/`choice_label` are already
`force_text`-ed, and for a `RadioChoiceInput` so is `value`
(src/xadmin/widgets.py:131-136). -/
structure ChoiceInputState : Type where
  input_type : String
  name : String
  value : String
  attrs : Dict PyVal
  choice_value : String
  choice_label : Label
  index : Nat
deriving DecidableEq

/-- Embedding of `ChoiceInput.tag` (src/xadmin/widgets.py:82-88): when an
`id` is present it is mutated in place to `id_index`; the input element is
rendered from `dict(self.attrs, type=…, name=…, value=…)` with `checked`
added when `self.value == self.choice_value`. Returns the markup and the
mutated attrs dict. -/
def choiceInput_tag (s : ChoiceInputState) : String × Dict PyVal :=
  let attrs :=
    if (dlookup "id" s.attrs).isSome then
      dinsert "id"
        (PyVal.vStr (((dlookup "id" s.attrs).getD PyVal.vNone).force_text ++
          "_" ++ toString s.index) false) s.attrs
    else s.attrs
  let final_attrs := dupdate attrs
    [("type", PyVal.vStr s.input_type false),
     ("name", PyVal.vStr s.name false),
     ("value", PyVal.vStr s.choice_value false)]
  let final_attrs :=
    if s.value = s.choice_value then
      dinsert "checked" (PyVal.vStr "checked" false) final_attrs
    else final_attrs
  ("<input" ++ flatatt final_attrs ++ " />", attrs)

/-- Embedding of the base `ChoiceInput.render` on the no-argument path
taken by `__str__` (src/xadmin/widgets.py:69-77): a `<label>` wrapping the
tag and the conditionally escaped label. Returns the markup and the
widget state afterwards. -/
def choiceInput_render (s : ChoiceInputState) : String × ChoiceInputState :=
  let label_for :=
    if (dlookup "id" s.attrs).isSome then
      " for=\"" ++ ((dlookup "id" s.attrs).getD PyVal.vNone).cond_escape ++
        "_" ++ toString s.index ++ "\""
    else ""
  let res := choiceInput_tag s
  ("<label" ++ label_for ++ ">" ++ res.1 ++ " " ++ s.choice_label.cond_escape ++
      "</label>",
    { s with attrs := res.2 })

/-- Python `attrs.get('class', '').replace('form-control', '')`: defined
when the `class` value (or its `''` default) is a string, an
`AttributeError` (`none`) otherwise; `str.replace` returns a plain
(unsafe) string. -/
def classReplaceFormControl : PyVal → Option PyVal
  | .vStr s _ => some (PyVal.vStr (s.replace "form-control" "") false)
  | _ => none

/-- The `class` entry of the dict (or its absence) is a string, so
`AdminRadioInput.render` does not raise. -/
def class_ok (d : Dict PyVal) : Bool :=
  (classReplaceFormControl ((dlookup "class" d).getD (PyVal.vStr "" false))).isSome

/-- Embedding of `AdminRadioInput.render` on the no-argument path taken by
`__str__` (src/xadmin/widgets.py:201-216): strips `form-control` from the
`class` attr (mutating it), computes `label_for` from the not yet
suffixed `id` by plain `%` formatting, conditionally escapes the label,
and wraps the tag inline (`<label … class="radio-inline">`) when the
attrs hold a truthy `inline` key, else in a `<div class="radio">`.
Returns the markup and the widget state afterwards; `none` models the
`AttributeError` on a non-string `class` value. -/
def adminRadioInput_render (s : ChoiceInputState) :
    Option (String × ChoiceInputState) :=
  match classReplaceFormControl ((dlookup "class" s.attrs).getD (PyVal.vStr "" false)) with
  | none => none
  | some cls =>
    let attrs1 := dinsert "class" cls s.attrs
    let label_for :=
      if (dlookup "id" attrs1).isSome then
        " for=\"" ++ ((dlookup "id" attrs1).getD PyVal.vNone).force_text ++
          "_" ++ toString s.index ++ "\""
      else ""
    let res := choiceInput_tag { s with attrs := attrs1 }
    let lbl := s.choice_label.cond_escape
    let html :=
      if ((dlookup "inline" attrs1).getD (PyVal.vBool false)).truthy then
        "<label" ++ label_for ++ " class=\"radio-inline\">" ++ res.1 ++ " " ++
          lbl ++ "</label>"
      else
        "<div class=\"radio\"><label" ++ label_for ++ ">" ++ res.1 ++ " " ++
          lbl ++ "</label></div>"
    some (html, { s with attrs := res.2 })

/-- Python `enumerate` starting at `i`. -/
def enumFrom {α : Type} (i : Nat) : List α → List (Nat × α)
  | [] => []
  | a :: l => (i, a) :: enumFrom (i + 1) l

/-- The state of a `ChoiceFieldRenderer` (src/xadmin/widgets.py:92-128). -/
structure RendererState : Type where
  name : String
  value : PyVal
  attrs : Dict PyVal
  choices : List Choice

/-- The `RadioChoiceInput`/`AdminRadioInput` the renderer builds for choice
`c` at index `i`: `RadioChoiceInput.__init__` forces `value` to text, and
the renderer passes `self.attrs.copy()`. -/
def mkRadioInput (r : RendererState) (i : Nat) (c : Choice) : ChoiceInputState :=
  { input_type := "radio"
    name := r.name
    value := r.value.force_text
    attrs := r.attrs
    choice_value := c.1.force_text
    choice_label := c.2
    index := i }

/-- Embedding of `ChoiceFieldRenderer.__iter__` /
`AdminRadioFieldRenderer.__iter__` (src/xadmin/widgets.py:105-107,
221-223): one input per choice, indices from 0, each holding a copy of
the renderer's attrs. -/
def radioFieldRenderer_iter (r : RendererState) : List ChoiceInputState :=
  (enumFrom 0 r.choices).map (fun p => mkRadioInput r p.1 p.2)

/-- Embedding of `ChoiceFieldRenderer.__getitem__`
(src/xadmin/widgets.py:109-111, 225-227). -/
def radioFieldRenderer_getitem (r : RendererState) (idx : Nat) :
    Option ChoiceInputState :=
  match r.choices.get? idx with
  | none => none
  | some c => some (mkRadioInput r idx c)

/-- Effectful `map` over `Option`: the first `none` (a Python raise)
propagates. -/
def omap {α β : Type} (f : α → Option β) : List α → Option (List β)
  | [] => some []
  | a :: l =>
    match f a with
    | none => none
    | some b =>
      match omap f l with
      | none => none
      | some bs => some (b :: bs)

/-- Embedding of `AdminRadioFieldRenderer.render`
(src/xadmin/widgets.py:229-230): `'\n'.join(force_unicode(w) for w in
self)`; `none` models a raise from a widget's `render`. -/
def adminRadioFieldRenderer_render (r : RendererState) : Option String :=
  match omap (fun w => (adminRadioInput_render w).map (fun pr => pr.1))
      (radioFieldRenderer_iter r) with
  | none => none
  | some frags => some (String.intercalate "\n" frags)

/-- `AdminRadioFieldRenderer.render` with the object states made explicit:
also returns each widget's state after its render, and the renderer's own
state after the loop (no statement of `render`/`__iter__` assigns to the
renderer, whose widgets each received `self.attrs.copy()`). -/
def adminRadioFieldRenderer_render_st (r : RendererState) :
    Option (String × List ChoiceInputState × RendererState) :=
  match omap adminRadioInput_render (radioFieldRenderer_iter r) with
  | none => none
  | some results =>
    some (String.intercalate "\n" (results.map (fun pr => pr.1)),
      results.map (fun pr => pr.2), r)

/-- Embedding of the base `ChoiceFieldRenderer.render`
(src/xadmin/widgets.py:116-128) for a `RadioFieldRenderer`, with explicit
states: a `<ul>` (carrying the id when the renderer's attrs hold a truthy
one) of `<li>`-wrapped widget renderings, newline-joined. -/
def choiceFieldRenderer_render_st (r : RendererState) :
    String × List ChoiceInputState × RendererState :=
  let id_ := dlookup "id" r.attrs
  let start_tag :=
    if (id_.getD PyVal.vNone).truthy then
      "<ul id=\"" ++ (id_.getD PyVal.vNone).cond_escape ++ "\">"
    else "<ul>"
  let results := (radioFieldRenderer_iter r).map choiceInput_render
  (String.intercalate "\n"
      ([start_tag] ++ results.map (fun pr => "<li>" ++ pr.1 ++ "</li>") ++
        ["</ul>"]),
    results.map (fun pr => pr.2), r)

/-!
`AdminCheckboxSelect.render` (src/xadmin/widgets.py:237-265) and the host
framework pieces it calls: `Widget.build_attrs` and
`forms.CheckboxInput.render`.
-/

/-- Modelled from the host framework: `Widget.build_attrs(extra_attrs,
**kwargs)` returns `dict(self.attrs, **kwargs)` updated with `extra_attrs`
when the latter is truthy (neither `None` nor empty). -/
def widget_build_attrs (self_attrs : Dict PyVal) (extra_attrs : Option (Dict PyVal))
    (kwargs : Dict PyVal) : Dict PyVal :=
  let a := dupdate self_attrs kwargs
  match extra_attrs with
  | none => a
  | some e => if e.isEmpty then a else dupdate a e

/-- Modelled from the host framework: the final attrs dict
`forms.CheckboxInput.render` builds for a string `value`:
`build_attrs(type='checkbox', name=name)`, plus `checked='checked'` when
the check test succeeded, plus `value=value` when `value` is not the
empty string (nor `True`/`False`/`None`, which a string never is). -/
def checkboxInput_final_attrs (self_attrs : Dict PyVal) (checked : Bool)
    (name value : String) : Dict PyVal :=
  let fa := widget_build_attrs self_attrs none
    [("type", PyVal.vStr "checkbox" false), ("name", PyVal.vStr name false)]
  let fa := if checked then dinsert "checked" (PyVal.vStr "checked" false) fa else fa
  if value = "" then fa else dinsert "value" (PyVal.vStr value false) fa

/-- Modelled from the host framework: `forms.CheckboxInput.render(name,
value)` for a widget constructed with `check_test`:
`format_html('<input{0} />', flatatt(final_attrs))`. -/
def checkboxInput_render (self_attrs : Dict PyVal) (check_test : String → Bool)
    (name value : String) : String :=
  "<input" ++ flatatt (checkboxInput_final_attrs self_attrs (check_test value) name value) ++ " />"

/-- Python `attrs and 'id' in attrs` in `AdminCheckboxSelect.render`. -/
def adminCheckboxSelect_has_id : Option (Dict PyVal) → Bool
  | none => false
  | some a => (dlookup "id" a).isSome

/-- The `attrs['id']` value the per-option ids are derived from (only read
when `has_id` holds). -/
def adminCheckboxSelect_orig_id : Option (Dict PyVal) → PyVal
  | none => PyVal.vNone
  | some a => (dlookup "id" a).getD PyVal.vNone

/-- The loop body of `AdminCheckboxSelect.render`
(src/xadmin/widgets.py:246-264), threading the rebound `final_attrs`
through the iterations: per option, insert the suffixed id (when one was
given), render the checkbox with `check_test=lambda value: value in
str_values`, conditionally escape the label, and wrap inline or in a
`<div class="checkbox">` according to the truthiness of
`final_attrs.get('inline', False)`. -/
def adminCheckboxSelect_loop (name : String) (str_values : List String)
    (has_id : Bool) (orig_id : PyVal) :
    Dict PyVal → Nat → List Choice → List String
  | _, _, [] => []
  | final_attrs, i, c :: cs =>
    let fa :=
      if has_id then
        dinsert "id" (PyVal.vStr (orig_id.force_text ++ "_" ++ toString i) false)
          final_attrs
      else final_attrs
    let label_for :=
      if has_id then
        " for=\"" ++ ((dlookup "id" fa).getD PyVal.vNone).force_text ++ "\""
      else ""
    let rendered_cb :=
      checkboxInput_render fa (fun v => str_values.contains v) name c.1.force_text
    let option_label := c.2.cond_escape
    let frag :=
      if ((dlookup "inline" fa).getD (PyVal.vBool false)).truthy then
        "<label" ++ label_for ++ " class=\"checkbox-inline\">" ++ rendered_cb ++
          " " ++ option_label ++ "</label>"
      else
        "<div class=\"checkbox\"><label" ++ label_for ++ ">" ++ rendered_cb ++
          " " ++ option_label ++ "</label></div>"
    frag :: adminCheckboxSelect_loop name str_values has_id orig_id fa (i + 1) cs

/-- Embedding of `AdminCheckboxSelect.render`
(src/xadmin/widgets.py:238-265): `None` value normalized to `[]`, selected
values forced to text (kept as a list: only membership is consulted),
`final_attrs = build_attrs(attrs)`, one fragment per option of
`chain(self.choices, choices)` enumerated from 0, newline-joined. -/
def adminCheckboxSelect_render (self_attrs : Dict PyVal) (self_choices : List Choice)
    (name : String) (value : Option (List PyVal)) (attrs : Option (Dict PyVal))
    (choices : List Choice) : String :=
  let value2 := match value with | none => [] | some v => v
  let final_attrs := widget_build_attrs self_attrs attrs []
  let str_values := value2.map PyVal.force_text
  String.intercalate "\n"
    (adminCheckboxSelect_loop name str_values (adminCheckboxSelect_has_id attrs)
      (adminCheckboxSelect_orig_id attrs) final_attrs 0 (self_choices ++ choices))

/-- The per-option effective attrs: the suffixed id assigned over the
incoming `final_attrs` when an id was given. -/
def adminCheckboxSelect_option_attrs (has_id : Bool) (orig_id : PyVal)
    (fa0 : Dict PyVal) (i : Nat) : Dict PyVal :=
  if has_id then
    dinsert "id" (PyVal.vStr (orig_id.force_text ++ "_" ++ toString i) false) fa0
  else fa0

/-- The final attrs dict of the checkbox input rendered for choice `c` at
index `i`. -/
def adminCheckboxSelect_option_cb_attrs (name : String) (str_values : List String)
    (has_id : Bool) (orig_id : PyVal) (fa0 : Dict PyVal) (i : Nat) (c : Choice) :
    Dict PyVal :=
  checkboxInput_final_attrs (adminCheckboxSelect_option_attrs has_id orig_id fa0 i)
    (str_values.contains c.1.force_text) name c.1.force_text

/-- The `label_for` fragment of the option at index `i`. -/
def adminCheckboxSelect_option_label_for (has_id : Bool) (orig_id : PyVal)
    (fa0 : Dict PyVal) (i : Nat) : String :=
  if has_id then
    " for=\"" ++
      ((dlookup "id" (adminCheckboxSelect_option_attrs has_id orig_id fa0 i)).getD
        PyVal.vNone).force_text ++ "\""
  else ""

/-- The `<input … />` markup of the checkbox rendered for choice `c` at
index `i`. -/
def adminCheckboxSelect_option_cb_html (name : String) (str_values : List String)
    (has_id : Bool) (orig_id : PyVal) (fa0 : Dict PyVal) (i : Nat) (c : Choice) :
    String :=
  "<input" ++
    flatatt (adminCheckboxSelect_option_cb_attrs name str_values has_id orig_id fa0 i c) ++
    " />"

/-- The fragment `AdminCheckboxSelect.render` emits for choice `c` at index
`i`, as a function of the loop-invariant data only. -/
def adminCheckboxSelect_option_html (name : String) (str_values : List String)
    (has_id : Bool) (orig_id : PyVal) (fa0 : Dict PyVal) (i : Nat) (c : Choice) :
    String :=
  if ((dlookup "inline" (adminCheckboxSelect_option_attrs has_id orig_id fa0 i)).getD
      (PyVal.vBool false)).truthy then
    "<label" ++ adminCheckboxSelect_option_label_for has_id orig_id fa0 i ++
      " class=\"checkbox-inline\">" ++
      adminCheckboxSelect_option_cb_html name str_values has_id orig_id fa0 i c ++
      " " ++ c.2.cond_escape ++ "</label>"
  else
    "<div class=\"checkbox\"><label" ++
      adminCheckboxSelect_option_label_for has_id orig_id fa0 i ++ ">" ++
      adminCheckboxSelect_option_cb_html name str_values has_id orig_id fa0 i c ++
      " " ++ c.2.cond_escape ++ "</label></div>"

theorem dinsert_dinsert {α : Type} (k : String) (v w : α) (d : Dict α) :
    dinsert k v (dinsert k w d) = dinsert k v d := by
  induction d with
  | nil => simp [dinsert]
  | cons p d ih =>
    obtain ⟨k2, v2⟩ := p
    by_cases h : k2 = k <;> simp [dinsert, h, ih]

theorem option_attrs_idem (hid : Bool) (oid : PyVal) (fa : Dict PyVal) (i j : Nat) :
    adminCheckboxSelect_option_attrs hid oid
        (adminCheckboxSelect_option_attrs hid oid fa i) j =
      adminCheckboxSelect_option_attrs hid oid fa j := by
  cases hid <;> simp [adminCheckboxSelect_option_attrs, dinsert_dinsert]

theorem option_html_option_attrs (name : String) (sv : List String) (hid : Bool)
    (oid : PyVal) (fa : Dict PyVal) (i j : Nat) (c : Choice) :
    adminCheckboxSelect_option_html name sv hid oid
        (adminCheckboxSelect_option_attrs hid oid fa i) j c =
      adminCheckboxSelect_option_html name sv hid oid fa j c := by
  simp only [adminCheckboxSelect_option_html, adminCheckboxSelect_option_label_for,
    adminCheckboxSelect_option_cb_html, adminCheckboxSelect_option_cb_attrs,
    option_attrs_idem]

theorem adminCheckboxSelect_loop_eq (name : String) (sv : List String) (hid : Bool)
    (oid : PyVal) (cs : List Choice) :
    ∀ (fa : Dict PyVal) (i : Nat),
      adminCheckboxSelect_loop name sv hid oid fa i cs =
        (enumFrom i cs).map
          (fun p => adminCheckboxSelect_option_html name sv hid oid fa p.1 p.2) := by
  induction cs with
  | nil => intro fa i; rfl
  | cons c cs ih =>
    intro fa i
    have hfun :
        (fun p : Nat × Choice => adminCheckboxSelect_option_html name sv hid oid
          (adminCheckboxSelect_option_attrs hid oid fa i) p.1 p.2) =
        (fun p : Nat × Choice =>
          adminCheckboxSelect_option_html name sv hid oid fa p.1 p.2) :=
      funext fun p => option_html_option_attrs name sv hid oid fa i p.1 p.2
    calc adminCheckboxSelect_loop name sv hid oid fa i (c :: cs)
        = adminCheckboxSelect_option_html name sv hid oid fa i c ::
            adminCheckboxSelect_loop name sv hid oid
              (adminCheckboxSelect_option_attrs hid oid fa i) (i + 1) cs := rfl
      _ = adminCheckboxSelect_option_html name sv hid oid fa i c ::
            (enumFrom (i + 1) cs).map
              (fun p => adminCheckboxSelect_option_html name sv hid oid fa p.1 p.2) := by
          rw [ih, hfun]
      _ = _ := rfl

/-- Claim C3: `AdminCheckboxSelect.render` emits exactly one labeled
checkbox fragment per option, iterating the widget's own choices followed
by the extra choices with indices from 0, joined by newlines; the
checkbox of an option carries `checked` exactly when the stringified
option value is among the stringified selected values. -/
theorem adminCheckboxSelect_render_spec (self_attrs : Dict PyVal)
    (self_choices : List Choice) (name : String) (value : Option (List PyVal))
    (attrs : Option (Dict PyVal)) (choices : List Choice) :
    adminCheckboxSelect_render self_attrs self_choices name value attrs choices =
      String.intercalate "\n"
        ((enumFrom 0 (self_choices ++ choices)).map
          (fun p => adminCheckboxSelect_option_html name
            ((match value with | none => [] | some v => v).map PyVal.force_text)
            (adminCheckboxSelect_has_id attrs) (adminCheckboxSelect_orig_id attrs)
            (widget_build_attrs self_attrs attrs []) p.1 p.2)) ∧
    (∀ (sv : List String) (hid : Bool) (oid : PyVal) (fa0 : Dict PyVal) (i : Nat)
        (c : Choice),
      (c.1.force_text ∈ sv →
        adminCheckboxSelect_option_cb_attrs name sv hid oid fa0 i c =
          checkboxInput_final_attrs (adminCheckboxSelect_option_attrs hid oid fa0 i)
            true name c.1.force_text) ∧
      (c.1.force_text ∉ sv →
        adminCheckboxSelect_option_cb_attrs name sv hid oid fa0 i c =
          checkboxInput_final_attrs (adminCheckboxSelect_option_attrs hid oid fa0 i)
            false name c.1.force_text)) := by
  constructor
  · show String.intercalate "\n" _ = _
    rw [adminCheckboxSelect_loop_eq]
  · intro sv hid oid fa0 i c
    constructor
    · intro hmem
      simp [adminCheckboxSelect_option_cb_attrs, hmem]
    · intro hmem
      simp [adminCheckboxSelect_option_cb_attrs, hmem]

/-- Claim C3, witness: with the single selected value `a`, the option
`a`'s checkbox final attrs carry `checked`, and the render is the join of
the per-option fragments. -/
theorem adminCheckboxSelect_render_spec_witness :
    adminCheckboxSelect_render [] [(PyVal.vStr "a" false, ⟨"A", false⟩)] "n"
        (some [PyVal.vStr "a" false]) none [] =
      String.intercalate "\n"
        ((enumFrom 0 ([(PyVal.vStr "a" false, (⟨"A", false⟩ : Label))] ++ [])).map
          (fun p => adminCheckboxSelect_option_html "n"
            ([PyVal.vStr "a" false].map PyVal.force_text)
            (adminCheckboxSelect_has_id none) (adminCheckboxSelect_orig_id none)
            (widget_build_attrs [] none []) p.1 p.2)) ∧
      (PyVal.vStr "a" false).force_text ∈ ["a"] ∧
      adminCheckboxSelect_option_cb_attrs "n" ["a"] false PyVal.vNone [] 0
          (PyVal.vStr "a" false, ⟨"A", false⟩) =
        checkboxInput_final_attrs (adminCheckboxSelect_option_attrs false PyVal.vNone [] 0)
          true "n" ((PyVal.vStr "a" false : PyVal), (⟨"A", false⟩ : Label)).1.force_text :=
  ⟨(adminCheckboxSelect_render_spec [] [(PyVal.vStr "a" false, ⟨"A", false⟩)] "n"
      (some [PyVal.vStr "a" false]) none []).1,
    by decide,
    ((adminCheckboxSelect_render_spec [] [(PyVal.vStr "a" false, ⟨"A", false⟩)] "n"
      (some [PyVal.vStr "a" false]) none []).2 ["a"] false PyVal.vNone [] 0
      (PyVal.vStr "a" false, ⟨"A", false⟩)).1 (by decide)⟩

theorem dlookup_none_iff {α : Type} (k : String) (d : Dict α) :
    dlookup k d = none ↔ k ∉ d.map Prod.fst := by
  induction d with
  | nil => simp [dlookup]
  | cons p d ih =>
    obtain ⟨k2, v⟩ := p
    by_cases h : k2 = k
    · subst h
      simp [dlookup]
    · have h2 : ¬ k = k2 := fun hh => h hh.symm
      simp [dlookup, h, ih, h2]

theorem dlookupLast_none {α : Type} (k : String) (d : Dict α)
    (h : dlookup k d = none) : dlookupLast k d = none := by
  apply (dlookup_none_iff k d.reverse).mpr
  have := (dlookup_none_iff k d).mp h
  simpa using this

theorem dlookup_checked_cb_final (fa : Dict PyVal) (name value : String)
    (h : dlookup "checked" fa = none) :
    dlookup "checked" (checkboxInput_final_attrs fa false name value) = none := by
  have h1 : dlookup "checked"
      (dupdate fa [("type", PyVal.vStr "checkbox" false),
        ("name", PyVal.vStr name false)]) = none := by
    rw [dlookup_dupdate]
    simp [dlookupLast, dlookup, h, oor]
  by_cases hv : value = "" <;>
    simp [checkboxInput_final_attrs, widget_build_attrs, hv, h1, dlookup_dinsert]

/-- Claim C10: `AdminCheckboxSelect.render` with `value=None` returns
exactly the same string as with `value=[]` (the `None` is normalized to
`[]`), and with an empty selection (and no stray `checked` entry in the
widget or caller attrs) the final attrs of every rendered checkbox lack
the `checked` key, so no checkbox is rendered checked. -/
theorem adminCheckboxSelect_none_value_spec (self_attrs : Dict PyVal)
    (self_choices : List Choice) (name : String) (attrs : Option (Dict PyVal))
    (choices : List Choice) :
    adminCheckboxSelect_render self_attrs self_choices name none attrs choices =
      adminCheckboxSelect_render self_attrs self_choices name (some []) attrs choices ∧
    (dlookup "checked" self_attrs = none →
      (∀ a, attrs = some a → dlookup "checked" a = none) →
      ∀ (i : Nat) (c : Choice),
        dlookup "checked"
          (adminCheckboxSelect_option_cb_attrs name []
            (adminCheckboxSelect_has_id attrs) (adminCheckboxSelect_orig_id attrs)
            (widget_build_attrs self_attrs attrs []) i c) = none) := by
  refine ⟨rfl, ?_⟩
  intro h1 h2 i c
  have hfa0 : dlookup "checked" (widget_build_attrs self_attrs attrs []) = none := by
    cases attrs with
    | none => exact h1
    | some a =>
      have ha := h2 a rfl
      have hnil : dupdate self_attrs ([] : Dict PyVal) = self_attrs := rfl
      by_cases he : a.isEmpty
      · simp [widget_build_attrs, he, hnil, h1]
      · simp [widget_build_attrs, he, hnil, dlookup_dupdate,
          dlookupLast_none "checked" a ha, oor, h1]
  have hfai : dlookup "checked"
      (adminCheckboxSelect_option_attrs (adminCheckboxSelect_has_id attrs)
        (adminCheckboxSelect_orig_id attrs) (widget_build_attrs self_attrs attrs []) i) =
      none := by
    cases hh : adminCheckboxSelect_has_id attrs <;>
      simp [adminCheckboxSelect_option_attrs, dlookup_dinsert, hfa0]
  have hcontains : ([] : List String).contains c.1.force_text = false := rfl
  show dlookup "checked" (checkboxInput_final_attrs _ (([] : List String).contains c.1.force_text) _ _) = none
  rw [hcontains]
  exact dlookup_checked_cb_final _ name _ hfai

/-- Claim C10, witness: with widget attrs `{}`, render attrs
`{"id": "x"}` and one choice, the `None` and `[]` calls agree and the
rendered checkbox's final attrs hold no `checked` key. -/
theorem adminCheckboxSelect_none_value_spec_witness :
    dlookup "checked" ([] : Dict PyVal) = none ∧
      adminCheckboxSelect_render [] [(PyVal.vStr "a" false, ⟨"A", false⟩)] "n" none
          (some [("id", PyVal.vStr "x" false)]) [] =
        adminCheckboxSelect_render [] [(PyVal.vStr "a" false, ⟨"A", false⟩)] "n"
          (some []) (some [("id", PyVal.vStr "x" false)]) [] ∧
      dlookup "checked"
        (adminCheckboxSelect_option_cb_attrs "n" []
          (adminCheckboxSelect_has_id (some [("id", PyVal.vStr "x" false)]))
          (adminCheckboxSelect_orig_id (some [("id", PyVal.vStr "x" false)]))
          (widget_build_attrs [] (some [("id", PyVal.vStr "x" false)]) []) 0
          (PyVal.vStr "a" false, ⟨"A", false⟩)) = none :=
  ⟨rfl,
    (adminCheckboxSelect_none_value_spec [] [(PyVal.vStr "a" false, ⟨"A", false⟩)]
      "n" (some [("id", PyVal.vStr "x" false)]) []).1,
    (adminCheckboxSelect_none_value_spec [] [(PyVal.vStr "a" false, ⟨"A", false⟩)]
      "n" (some [("id", PyVal.vStr "x" false)]) []).2 rfl
      (fun a ha => by cases ha; rfl) 0 (PyVal.vStr "a" false, ⟨"A", false⟩)⟩

/-- The stripped `class` value `AdminRadioInput.render` assigns, written
for the (always intended) case of a string-or-absent `class` attr. -/
def stripped_class (w : ChoiceInputState) : PyVal :=
  PyVal.vStr
    ((((dlookup "class" w.attrs).getD (PyVal.vStr "" false)).force_text).replace
      "form-control" "") false

/-- The attrs dict of an `AdminRadioInput` after its `render` stripped
`form-control` from the `class` value. -/
def adminRadioInput_attrs1 (w : ChoiceInputState) : Dict PyVal :=
  dinsert "class" (stripped_class w) w.attrs

/-- The `label_for` fragment `AdminRadioInput.render` builds by plain `%`
formatting from the not yet suffixed id. -/
def adminRadioInput_label_for (w : ChoiceInputState) : String :=
  if (dlookup "id" (adminRadioInput_attrs1 w)).isSome then
    " for=\"" ++ ((dlookup "id" (adminRadioInput_attrs1 w)).getD PyVal.vNone).force_text ++
      "_" ++ toString w.index ++ "\""
  else ""

/-- The `<input … />` markup `self.tag()` contributes inside
`AdminRadioInput.render`. -/
def adminRadioInput_tag_html (w : ChoiceInputState) : String :=
  (choiceInput_tag { w with attrs := adminRadioInput_attrs1 w }).1

/-- The markup `AdminRadioInput.render` produces (the `some` case of
`adminRadioInput_render`). -/
def adminRadioInput_render_str (w : ChoiceInputState) : String :=
  if ((dlookup "inline" (adminRadioInput_attrs1 w)).getD (PyVal.vBool false)).truthy then
    "<label" ++ adminRadioInput_label_for w ++ " class=\"radio-inline\">" ++
      adminRadioInput_tag_html w ++ " " ++ w.choice_label.cond_escape ++ "</label>"
  else
    "<div class=\"radio\"><label" ++ adminRadioInput_label_for w ++ ">" ++
      adminRadioInput_tag_html w ++ " " ++ w.choice_label.cond_escape ++ "</label></div>"

/-- The widget state `AdminRadioInput.render` leaves behind: its own attrs
dict with `class` stripped and `id` suffixed by `tag`. -/
def adminRadioInput_render_post (w : ChoiceInputState) : ChoiceInputState :=
  { w with attrs :=
      (choiceInput_tag { w with attrs := adminRadioInput_attrs1 w }).2 }

theorem adminRadioInput_render_eq (w : ChoiceInputState)
    (h : class_ok w.attrs = true) :
    adminRadioInput_render w =
      some (adminRadioInput_render_str w, adminRadioInput_render_post w) := by
  unfold class_ok at h
  cases hv : (dlookup "class" w.attrs).getD (PyVal.vStr "" false) with
  | vStr s sf =>
    have hcls : stripped_class w = PyVal.vStr (s.replace "form-control" "") false := by
      unfold stripped_class
      rw [hv]
      rfl
    unfold adminRadioInput_render adminRadioInput_render_str
      adminRadioInput_render_post adminRadioInput_tag_html
      adminRadioInput_label_for adminRadioInput_attrs1
    rw [hv, hcls]
    simp [classReplaceFormControl]
  | vNone =>
    rw [hv] at h
    simp [classReplaceFormControl] at h
  | vBool b =>
    rw [hv] at h
    simp [classReplaceFormControl] at h
  | vInt n =>
    rw [hv] at h
    simp [classReplaceFormControl] at h

theorem dlookup_inline_dinsert_class (v : PyVal) (d : Dict PyVal) :
    dlookup "inline" (dinsert "class" v d) = dlookup "inline" d := by
  rw [dlookup_dinsert]
  simp

/-- Claim C4: `AdminRadioInput.render` and the per-option fragment of
`AdminCheckboxSelect.render` produce inline layout — a single
`<label … class="radio-inline">` / `<label … class="checkbox-inline">`
element — exactly when the effective attrs hold a truthy `inline` key,
and block layout — the label wrapped in `<div class="radio">` /
`<div class="checkbox">` — otherwise. -/
theorem inline_block_layout_spec :
    (∀ w : ChoiceInputState, class_ok w.attrs = true →
      (((dlookup "inline" w.attrs).getD (PyVal.vBool false)).truthy = true →
        ∃ lf t l, (adminRadioInput_render w).map (fun pr => pr.1) =
          some ("<label" ++ lf ++ " class=\"radio-inline\">" ++ t ++ " " ++ l ++
            "</label>")) ∧
      (((dlookup "inline" w.attrs).getD (PyVal.vBool false)).truthy = false →
        ∃ lf t l, (adminRadioInput_render w).map (fun pr => pr.1) =
          some ("<div class=\"radio\"><label" ++ lf ++ ">" ++ t ++ " " ++ l ++
            "</label></div>"))) ∧
    (∀ (name : String) (sv : List String) (hid : Bool) (oid : PyVal)
        (fa0 : Dict PyVal) (i : Nat) (c : Choice),
      (((dlookup "inline" (adminCheckboxSelect_option_attrs hid oid fa0 i)).getD
          (PyVal.vBool false)).truthy = true →
        ∃ lf cb l, adminCheckboxSelect_option_html name sv hid oid fa0 i c =
          "<label" ++ lf ++ " class=\"checkbox-inline\">" ++ cb ++ " " ++ l ++
            "</label>") ∧
      (((dlookup "inline" (adminCheckboxSelect_option_attrs hid oid fa0 i)).getD
          (PyVal.vBool false)).truthy = false →
        ∃ lf cb l, adminCheckboxSelect_option_html name sv hid oid fa0 i c =
          "<div class=\"checkbox\"><label" ++ lf ++ ">" ++ cb ++ " " ++ l ++
            "</label></div>")) := by
  constructor
  · intro w h
    have hinl : dlookup "inline" (adminRadioInput_attrs1 w) = dlookup "inline" w.attrs := by
      unfold adminRadioInput_attrs1
      exact dlookup_inline_dinsert_class _ _
    constructor
    · intro hin
      refine ⟨adminRadioInput_label_for w, adminRadioInput_tag_html w,
        w.choice_label.cond_escape, ?_⟩
      rw [adminRadioInput_render_eq w h]
      unfold adminRadioInput_render_str
      rw [hinl, hin]
      simp
    · intro hin
      refine ⟨adminRadioInput_label_for w, adminRadioInput_tag_html w,
        w.choice_label.cond_escape, ?_⟩
      rw [adminRadioInput_render_eq w h]
      unfold adminRadioInput_render_str
      rw [hinl, hin]
      simp
  · intro name sv hid oid fa0 i c
    constructor
    · intro hin
      refine ⟨adminCheckboxSelect_option_label_for hid oid fa0 i,
        adminCheckboxSelect_option_cb_html name sv hid oid fa0 i c,
        c.2.cond_escape, ?_⟩
      unfold adminCheckboxSelect_option_html
      rw [hin]
      simp
    · intro hin
      refine ⟨adminCheckboxSelect_option_label_for hid oid fa0 i,
        adminCheckboxSelect_option_cb_html name sv hid oid fa0 i c,
        c.2.cond_escape, ?_⟩
      unfold adminCheckboxSelect_option_html
      rw [hin]
      simp

/-- Claim C4, witness: with attrs `{"inline": True}` the radio fragment is
a single inline label. -/
theorem inline_block_layout_spec_witness :
    class_ok (⟨"radio", "n", "1", [("inline", PyVal.vBool true)], "1", ⟨"A", false⟩, 0⟩ :
        ChoiceInputState).attrs = true ∧
      ((dlookup "inline"
          (⟨"radio", "n", "1", [("inline", PyVal.vBool true)], "1", ⟨"A", false⟩, 0⟩ :
            ChoiceInputState).attrs).getD (PyVal.vBool false)).truthy = true ∧
      ∃ lf t l,
        (adminRadioInput_render
            (⟨"radio", "n", "1", [("inline", PyVal.vBool true)], "1", ⟨"A", false⟩, 0⟩ :
              ChoiceInputState)).map (fun pr => pr.1) =
          some ("<label" ++ lf ++ " class=\"radio-inline\">" ++ t ++ " " ++ l ++
            "</label>") :=
  ⟨by decide, by decide,
    ((inline_block_layout_spec.1
      (⟨"radio", "n", "1", [("inline", PyVal.vBool true)], "1", ⟨"A", false⟩, 0⟩ :
        ChoiceInputState) (by decide)).1 (by decide))⟩

/-- Claim C5: both `AdminRadioInput.render` and the per-option fragment of
`AdminCheckboxSelect.render` interpolate the choice label only through
`conditional_escape`: the fragment is some prefix, then the conditionally
escaped label, then the closing `</label>` (or `</label></div>`), and for
a label not marked safe the escaping is the full HTML escape. -/
theorem label_escape_spec :
    (∀ w : ChoiceInputState, class_ok w.attrs = true →
      ∃ p suf, (adminRadioInput_render w).map (fun pr => pr.1) =
          some (p ++ w.choice_label.cond_escape ++ suf) ∧
        (suf = "</label>" ∨ suf = "</label></div>")) ∧
    (∀ (name : String) (sv : List String) (hid : Bool) (oid : PyVal)
        (fa0 : Dict PyVal) (i : Nat) (c : Choice),
      ∃ p suf, adminCheckboxSelect_option_html name sv hid oid fa0 i c =
          p ++ c.2.cond_escape ++ suf ∧
        (suf = "</label>" ∨ suf = "</label></div>")) ∧
    (∀ l : Label, l.safe = false → l.cond_escape = escapeHtml l.text) := by
  refine ⟨?_, ?_, ?_⟩
  · intro w h
    by_cases hin :
        ((dlookup "inline" (adminRadioInput_attrs1 w)).getD
          (PyVal.vBool false)).truthy = true
    · refine ⟨"<label" ++ adminRadioInput_label_for w ++ " class=\"radio-inline\">" ++
        adminRadioInput_tag_html w ++ " ", "</label>", ?_, Or.inl rfl⟩
      rw [adminRadioInput_render_eq w h]
      unfold adminRadioInput_render_str
      rw [hin]
      simp
    · rw [Bool.not_eq_true] at hin
      refine ⟨"<div class=\"radio\"><label" ++ adminRadioInput_label_for w ++ ">" ++
        adminRadioInput_tag_html w ++ " ", "</label></div>", ?_, Or.inr rfl⟩
      rw [adminRadioInput_render_eq w h]
      unfold adminRadioInput_render_str
      rw [hin]
      simp
  · intro name sv hid oid fa0 i c
    by_cases hin :
        ((dlookup "inline" (adminCheckboxSelect_option_attrs hid oid fa0 i)).getD
          (PyVal.vBool false)).truthy = true
    · refine ⟨"<label" ++ adminCheckboxSelect_option_label_for hid oid fa0 i ++
        " class=\"checkbox-inline\">" ++
        adminCheckboxSelect_option_cb_html name sv hid oid fa0 i c ++ " ",
        "</label>", ?_, Or.inl rfl⟩
      unfold adminCheckboxSelect_option_html
      rw [hin]
      simp
    · rw [Bool.not_eq_true] at hin
      refine ⟨"<div class=\"checkbox\"><label" ++
        adminCheckboxSelect_option_label_for hid oid fa0 i ++ ">" ++
        adminCheckboxSelect_option_cb_html name sv hid oid fa0 i c ++ " ",
        "</label></div>", ?_, Or.inr rfl⟩
      unfold adminCheckboxSelect_option_html
      rw [hin]
      simp
  · intro l h
    simp [Label.cond_escape, h]

/-- Claim C5, witness: the unsafe label `<b>` appears as `&lt;b&gt;` in the
rendered radio fragment. -/
theorem label_escape_spec_witness :
    class_ok (⟨"radio", "n", "1", [], "1", ⟨"<b>", false⟩, 0⟩ :
        ChoiceInputState).attrs = true ∧
      (∃ p suf,
        (adminRadioInput_render
            (⟨"radio", "n", "1", [], "1", ⟨"<b>", false⟩, 0⟩ :
              ChoiceInputState)).map (fun pr => pr.1) =
            some (p ++ (Label.mk "<b>" false).cond_escape ++ suf) ∧
          (suf = "</label>" ∨ suf = "</label></div>")) ∧
      (Label.mk "<b>" false).cond_escape = "&lt;b&gt;" :=
  ⟨by decide,
    label_escape_spec.1
      (⟨"radio", "n", "1", [], "1", ⟨"<b>", false⟩, 0⟩ : ChoiceInputState)
      (by decide),
    by decide⟩

theorem omap_eq_map {α β : Type} (f : α → Option β) (g : α → β)
    (l : List α) (h : ∀ a ∈ l, f a = some (g a)) : omap f l = some (l.map g) := by
  induction l with
  | nil => rfl
  | cons a l ih =>
    have ha := h a (List.mem_cons_self a l)
    have hl : ∀ x ∈ l, f x = some (g x) := fun x hx => h x (List.mem_cons_of_mem a hx)
    simp [omap, ha, ih hl]

theorem adminRadioInput_render_eq_of_mk (r : RendererState)
    (h : class_ok r.attrs = true) (p : Nat × Choice) :
    adminRadioInput_render (mkRadioInput r p.1 p.2) =
      some (adminRadioInput_render_str (mkRadioInput r p.1 p.2),
        adminRadioInput_render_post (mkRadioInput r p.1 p.2)) :=
  adminRadioInput_render_eq (mkRadioInput r p.1 p.2) h

/-- Claim C8: `AdminRadioFieldRenderer.render` returns exactly the
newline-join of the renderings of one `AdminRadioInput` per choice, built
in choice-list order with indices from 0, each receiving the renderer's
name, value and a copy of its attrs — with no `<ul>`/`<li>` wrapper. -/
theorem adminRadioFieldRenderer_render_spec (r : RendererState)
    (h : class_ok r.attrs = true) :
    adminRadioFieldRenderer_render r =
      some (String.intercalate "\n"
        ((enumFrom 0 r.choices).map
          (fun p => adminRadioInput_render_str (mkRadioInput r p.1 p.2)))) := by
  unfold adminRadioFieldRenderer_render radioFieldRenderer_iter
  rw [omap_eq_map
    (fun w => (adminRadioInput_render w).map (fun pr => pr.1))
    adminRadioInput_render_str]
  · rw [List.map_map]
    rfl
  · intro w hw
    rcases List.mem_map.mp hw with ⟨p, hp, rfl⟩
    rw [adminRadioInput_render_eq_of_mk r h p]
    rfl

/-- Claim C8, witness: a two-choice renderer with an id and a value
produces the two labeled radio fragments, newline-joined. -/
theorem adminRadioFieldRenderer_render_spec_witness :
    class_ok (RendererState.mk "n" (PyVal.vStr "b" false)
        [("id", PyVal.vStr "x" false)]
        [(PyVal.vStr "a" false, ⟨"A", false⟩), (PyVal.vStr "b" false, ⟨"B", false⟩)]).attrs
        = true ∧
      adminRadioFieldRenderer_render
          (RendererState.mk "n" (PyVal.vStr "b" false)
            [("id", PyVal.vStr "x" false)]
            [(PyVal.vStr "a" false, ⟨"A", false⟩), (PyVal.vStr "b" false, ⟨"B", false⟩)]) =
        some (String.intercalate "\n"
          ((enumFrom 0
              [((PyVal.vStr "a" false : PyVal), (⟨"A", false⟩ : Label)),
                (PyVal.vStr "b" false, ⟨"B", false⟩)]).map
            (fun p => adminRadioInput_render_str
              (mkRadioInput
                (RendererState.mk "n" (PyVal.vStr "b" false)
                  [("id", PyVal.vStr "x" false)]
                  [(PyVal.vStr "a" false, ⟨"A", false⟩), (PyVal.vStr "b" false, ⟨"B", false⟩)])
                p.1 p.2)))) :=
  ⟨by decide,
    adminRadioFieldRenderer_render_spec
      (RendererState.mk "n" (PyVal.vStr "b" false)
        [("id", PyVal.vStr "x" false)]
        [(PyVal.vStr "a" false, ⟨"A", false⟩), (PyVal.vStr "b" false, ⟨"B", false⟩)])
      (by decide)⟩

theorem dlookup_id_dinsert_class (v : PyVal) (d : Dict PyVal) :
    dlookup "id" (dinsert "class" v d) = dlookup "id" d := by
  rw [dlookup_dinsert]
  simp

theorem choiceInput_tag_attrs_id (s : ChoiceInputState)
    (h : (dlookup "id" s.attrs).isSome = true) :
    dlookup "id" (choiceInput_tag s).2 =
      some (PyVal.vStr (((dlookup "id" s.attrs).getD PyVal.vNone).force_text ++
        "_" ++ toString s.index) false) := by
  unfold choiceInput_tag
  simp [h, dlookup_dinsert]

theorem adminRadioInput_render_post_id (w : ChoiceInputState)
    (h : (dlookup "id" w.attrs).isSome = true) :
    dlookup "id" (adminRadioInput_render_post w).attrs =
      some (PyVal.vStr (((dlookup "id" w.attrs).getD PyVal.vNone).force_text ++
        "_" ++ toString w.index) false) := by
  have h1 : dlookup "id" (adminRadioInput_attrs1 w) = dlookup "id" w.attrs := by
    unfold adminRadioInput_attrs1
    exact dlookup_id_dinsert_class _ _
  have h2 : (dlookup "id" ({ w with attrs := adminRadioInput_attrs1 w } :
      ChoiceInputState).attrs).isSome = true := by
    show (dlookup "id" (adminRadioInput_attrs1 w)).isSome = true
    rw [h1]
    exact h
  unfold adminRadioInput_render_post
  show dlookup "id" (choiceInput_tag { w with attrs := adminRadioInput_attrs1 w }).2 = _
  rw [choiceInput_tag_attrs_id _ h2]
  show some (PyVal.vStr (((dlookup "id" (adminRadioInput_attrs1 w)).getD
    PyVal.vNone).force_text ++ "_" ++ toString w.index) false) = _
  rw [h1]

theorem choiceInput_render_post_id (s : ChoiceInputState)
    (h : (dlookup "id" s.attrs).isSome = true) :
    dlookup "id" ((choiceInput_render s).2).attrs =
      some (PyVal.vStr (((dlookup "id" s.attrs).getD PyVal.vNone).force_text ++
        "_" ++ toString s.index) false) := by
  unfold choiceInput_render
  show dlookup "id" (choiceInput_tag s).2 = _
  exact choiceInput_tag_attrs_id s h

/-- Claim C9: a full `render()` of an (admin or base) radio field renderer
leaves the renderer's own attrs dict unchanged — every yielded input got
a copy — even though each input's `tag` mutates its own attrs, suffixing
the id with the input's index. -/
theorem renderer_attrs_frame_spec (r : RendererState) (h : class_ok r.attrs = true) :
    adminRadioFieldRenderer_render_st r =
      some (String.intercalate "\n"
          ((enumFrom 0 r.choices).map
            (fun p => adminRadioInput_render_str (mkRadioInput r p.1 p.2))),
        (enumFrom 0 r.choices).map
          (fun p => adminRadioInput_render_post (mkRadioInput r p.1 p.2)),
        r) ∧
    (choiceFieldRenderer_render_st r).2.2 = r ∧
    ((dlookup "id" r.attrs).isSome = true →
      (∀ w ∈ (enumFrom 0 r.choices).map
          (fun p => adminRadioInput_render_post (mkRadioInput r p.1 p.2)),
        dlookup "id" w.attrs =
          some (PyVal.vStr (((dlookup "id" r.attrs).getD PyVal.vNone).force_text ++
            "_" ++ toString w.index) false)) ∧
      (∀ w ∈ (radioFieldRenderer_iter r).map (fun s => (choiceInput_render s).2),
        dlookup "id" w.attrs =
          some (PyVal.vStr (((dlookup "id" r.attrs).getD PyVal.vNone).force_text ++
            "_" ++ toString w.index) false))) := by
  refine ⟨?_, rfl, ?_⟩
  · unfold adminRadioFieldRenderer_render_st radioFieldRenderer_iter
    rw [omap_eq_map adminRadioInput_render
      (fun w => (adminRadioInput_render_str w, adminRadioInput_render_post w))]
    · simp only [List.map_map]
      rfl
    · intro w hw
      rcases List.mem_map.mp hw with ⟨p, hp, rfl⟩
      exact adminRadioInput_render_eq_of_mk r h p
  · intro hid
    constructor
    · intro w hw
      rcases List.mem_map.mp hw with ⟨p, hp, rfl⟩
      exact adminRadioInput_render_post_id (mkRadioInput r p.1 p.2) hid
    · intro w hw
      rcases List.mem_map.mp hw with ⟨s, hs, rfl⟩
      rcases List.mem_map.mp hs with ⟨p, hp, rfl⟩
      exact choiceInput_render_post_id (mkRadioInput r p.1 p.2) hid

/-- Claim C9, witness: a concrete renderer with an id comes back from a
full render with its own attrs intact while the yielded widget carries
the suffixed id. -/
theorem renderer_attrs_frame_spec_witness :
    class_ok (RendererState.mk "n" (PyVal.vStr "a" false)
        [("id", PyVal.vStr "x" false)] [(PyVal.vStr "a" false, ⟨"A", false⟩)]).attrs
        = true ∧
      (choiceFieldRenderer_render_st
        (RendererState.mk "n" (PyVal.vStr "a" false)
          [("id", PyVal.vStr "x" false)] [(PyVal.vStr "a" false, ⟨"A", false⟩)])).2.2 =
        RendererState.mk "n" (PyVal.vStr "a" false)
          [("id", PyVal.vStr "x" false)] [(PyVal.vStr "a" false, ⟨"A", false⟩)] :=
  ⟨by decide,
    (renderer_attrs_frame_spec
      (RendererState.mk "n" (PyVal.vStr "a" false)
        [("id", PyVal.vStr "x" false)] [(PyVal.vStr "a" false, ⟨"A", false⟩)])
      (by decide)).2.1⟩

end XAdmin
